import Mathlib

/-!
Shallow embedding of the `local-key-value-DB` store engine (the latest
iteration of `db.go`: per-key locks, TTL expiry, update/delete/close).

Modelling conventions:
* the in-memory Go map `map[string]DbData[T]` is an association list with
  unique keys (Go maps cannot hold duplicate keys);
* `time.Time` is an integer number of seconds (`IsExpired` only ever
  compares `now` against `created_at + ttlSeconds`);
* sizes are exact rationals in KB: `BytesToKB n = n / 1024` is exact in
  float64 for every realistic byte count (division by a power of two),
  and float comparison agrees with the rational order;
* the environment (JSON encoder, file size, disk behaviour, clock) is a
  record of oracles `Env`: `json.Marshal` may fail and otherwise yields a
  byte length, `getFileSizeInKB` may fail, `Sync` either succeeds or
  fails (`syncOk`), `releaseLock` yields an optional error.
-/

set_option autoImplicit false

namespace LocalKV

/-- `DbData[T]` from `utils.go`: value, ttl (empty string means no
expiry), creation timestamp (seconds). -/
structure DbData (T : Type) where
  value : T
  ttl : String
  created_at : Int
  deriving Repr, DecidableEq

/-- Zero value of `DbData[T]`, as produced by indexing a Go map at a
missing key. -/
def zeroData (T : Type) [Inhabited T] : DbData T :=
  { value := default, ttl := "", created_at := 0 }

/-- The in-memory map `db.data`. -/
abbrev KVMap (T : Type) := List (String × DbData T)

namespace KVMap

variable {T : Type}

/-- Go map read `db.data[key]` (presence only via the `, exists` form). -/
def lookup : KVMap T → String → Option (DbData T)
  | [], _ => none
  | (k, v) :: rest, key => if k = key then some v else lookup rest key

/-- Go map write `db.data[key] = v`: replaces in place or appends. -/
def insert : KVMap T → String → DbData T → KVMap T
  | [], key, val => [(key, val)]
  | (k, v) :: rest, key, val =>
      if k = key then (key, val) :: rest else (k, v) :: insert rest key val

/-- Go `delete(db.data, key)`. -/
def erase : KVMap T → String → KVMap T
  | [], _ => []
  | (k, v) :: rest, key =>
      if k = key then erase rest key else (k, v) :: erase rest key

/-- Go map read with zero-value default, `db.data[key]`. -/
def getEntry [Inhabited T] (m : KVMap T) (key : String) : DbData T :=
  (lookup m key).getD (zeroData T)

/-- The keys of the map, used to model `for key := range db.data`. -/
def keys (m : KVMap T) : List String := m.map Prod.fst

end KVMap

/-- Errors raised by the engine, one constructor per `dbError` factory
function used by `db.go` (message text is out of scope).  `syncFailed`
stands for whatever error `localStorage.Sync` returned, `jsonMarshalError`
for a raw `json.Marshal` error returned untranslated by `batchCreate`. -/
inductive DbErr where
  | keySizeExceedsLimit
  | entryAlreadyExists
  | jsonSizeExceedsLimit
  | failedToConvertMapToJson
  | jsonMarshalError
  | notAvailabeSpace
  | failedToGetFileSize
  | batchLimitCountExceeds
  | batchSizeLimitCrossed
  | keyExpired
  | keyNotFound
  | entryNotExists
  | entryExpired
  | dbAlreadyClosed
  | databaseAlreadyClose
  | unknownOperation
  | syncFailed
  | releaseFailed
  deriving Repr, DecidableEq

/-- The engine's environment: serialization oracle, disk and clock.
`marshalBytes d` is `len(json.Marshal(d))` (`none` = marshal error);
`marshalMapBytes b` the same for a whole map; `fileSizeKB` the result of
`localStorage.getFileSizeInKB` (`none` = stat error); `syncOk` whether
`localStorage.Sync` succeeds; `releaseErr` the result of
`localStorage.releaseLock`; `now` the clock `time.Now()` in seconds. -/
structure Env (T : Type) where
  marshalBytes : DbData T → Option Nat
  marshalMapBytes : KVMap T → Option Nat
  fileSizeKB : Option ℚ
  syncOk : Bool
  releaseErr : Option DbErr
  now : Int

/-- `const BatchLimit int = 500` -/
def BatchLimit : Nat := 500

/-- `const EntrySizeLimitMB = 16` -/
def EntrySizeLimitMB : ℚ := 16

/-- `const StorageLimitMB = 1024` -/
def StorageLimitMB : ℚ := 1024

/-- `const KB = 1024` from `utils.go`. -/
def KBconst : ℚ := 1024

/-- `BytesToKB` from `utils.go`: byte count over 1024 (exact in float64
for all byte counts below 2^53). -/
def BytesToKB (sizeInBytes : Nat) : ℚ := (sizeInBytes : ℚ) / 1024

/-- Digit-string value for `strconv.Atoi`; `none` on an empty string or
any non-digit character. -/
def parseDigits : List Char → Option Nat
  | [] => none
  | cs =>
    cs.foldlM
      (fun acc c =>
        if c.isDigit then some (acc * 10 + (c.toNat - 48)) else none)
      0

/-- Go's `strconv.Atoi`: optional sign, decimal digits, error (`none`)
on empty input, stray characters, or 64-bit overflow. -/
def goAtoi (s : String) : Option Int :=
  let cs := s.toList
  let signed : Bool × List Char :=
    match cs with
    | '+' :: rest => (false, rest)
    | '-' :: rest => (true, rest)
    | _ => (false, cs)
  match parseDigits signed.2 with
  | none => none
  | some n =>
    let v : Int := if signed.1 then -(n : Int) else (n : Int)
    if v < -(2 ^ 63) ∨ v > 2 ^ 63 - 1 then none else some v

section Engine

open KVMap

variable {T : Type} [Inhabited T]

/-- `DB.IsExpired`: empty ttl or an unparsable ttl means not expired;
otherwise expired once `time.Now()` is after `created_at + ttl` seconds. -/
def IsExpired (env : Env T) (m : KVMap T) (key : String) : Bool :=
  if (getEntry m key).ttl = "" then false
  else
    match goAtoi (getEntry m key).ttl with
    | none => false
    | some seconds => env.now > (getEntry m key).created_at + seconds

/-- `DB.isValidJson`: marshal the entry, convert to KB, fail when the
size exceeds `EntrySizeLimitMB*KB` (= 16*1024 KB). Returns the pair
`(size, err)` exactly as the Go function does. -/
def isValidJson (env : Env T) (d : DbData T) : ℚ × Option DbErr :=
  match env.marshalBytes d with
  | none => (0, some .failedToConvertMapToJson)
  | some len =>
    let jsonSize := BytesToKB len
    if jsonSize > EntrySizeLimitMB * KBconst then
      (jsonSize, some .jsonSizeExceedsLimit)
    else (jsonSize, none)

/-- `DB.checkAvailableSpace`: returns `(isSpaceAvailable, fileSizeKB, err)`. -/
def checkAvailableSpace (env : Env T) (entrySizeKB : ℚ) :
    Bool × ℚ × Option DbErr :=
  match env.fileSizeKB with
  | none => (false, 0, some .failedToGetFileSize)
  | some fs =>
    if fs + entrySizeKB > StorageLimitMB * KBconst then (false, fs, none)
    else (true, fs, none)

/-- `DB.deleteEntry`: remove the entry, persist; on persistence failure
put the (zero-defaulted) entry back and return the error. -/
def deleteEntry (env : Env T) (m : KVMap T) (key : String) :
    KVMap T × Option DbErr :=
  let entry := getEntry m key
  let m1 := erase m key
  if env.syncOk then (m1, none)
  else (insert m1 key entry, some .syncFailed)

/-- `DB.isEntryValid`: key-length check, existence check (with lazy
eviction of an expired occupant — the `EntryAlreadyExists` error is
returned either way), then the JSON size check. Returns the possibly
mutated map together with `(entrySize, err)`. -/
def isEntryValid (env : Env T) (m : KVMap T) (key : String)
    (value : DbData T) : KVMap T × ℚ × Option DbErr :=
  if key.utf8ByteSize > 32 then (m, 0, some .keySizeExceedsLimit)
  else if (lookup m key).isSome then
    let m1 := if IsExpired env m key then (deleteEntry env m key).1 else m
    (m1, 0, some .entryAlreadyExists)
  else
    match isValidJson env value with
    | (_, some e) => (m, 0, some e)
    | (sz, none) => (m, sz, none)

/-- `DB.create` (the write-worker action behind `Create`). -/
def create (env : Env T) (m : KVMap T) (key : String) (value : DbData T) :
    KVMap T × Option DbErr :=
  match isEntryValid env m key value with
  | (m1, _, some e) => (m1, some e)
  | (m1, entrySize, none) =>
    match checkAvailableSpace env entrySize with
    | (_, _, some e) => (m1, some e)
    | (isSpaceAvailable, _, none) =>
      if !isSpaceAvailable then (m1, some .notAvailabeSpace)
      else
        let m2 := insert m1 key value
        if env.syncOk then (m2, none)
        else (erase m2 key, some .syncFailed)

/-- `DB.read` (the read-worker action behind `Read`): returns the
possibly mutated map, the value (`none` on error, matching Go's zero
`DbData[T]{}`), and the error. -/
def readOp (env : Env T) (m : KVMap T) (key : String) :
    KVMap T × Option (DbData T) × Option DbErr :=
  match lookup m key with
  | some valueObj =>
    if IsExpired env m key then
      ((deleteEntry env m key).1, none, some .keyExpired)
    else (m, some valueObj, none)
  | none => (m, none, some .keyNotFound)

/-- `DB.delete` (the write-worker action behind `Delete`). -/
def deleteOp (env : Env T) (m : KVMap T) (key : String) :
    KVMap T × Option DbErr :=
  if (lookup m key).isSome then
    let isExpired := IsExpired env m key
    let r := deleteEntry env m key
    if r.2.isSome ∧ ¬ isExpired then r
    else if isExpired then (r.1, some .keyExpired)
    else r
  else (m, some .keyNotFound)

/-- `DB.update` (the write-worker action behind `Update`): existence and
expiry checks, then `isEntryValid` with its error DISCARDED (the Go
source reads `entrySize, _ := db.isEntryValid(key, updatedVal)` under a
`TODO: handle entryErr here`), space check on that `entrySize`, replace,
persist, roll back to the previous value on persistence failure. -/
def update (env : Env T) (m : KVMap T) (key : String)
    (updatedVal : DbData T) : KVMap T × Option DbErr :=
  if (lookup m key).isNone then (m, some .entryNotExists)
  else if IsExpired env m key then (erase m key, some .entryExpired)
  else
    let v := isEntryValid env m key updatedVal
    let m1 := v.1
    let entrySize := v.2.1
    match checkAvailableSpace env entrySize with
    | (_, _, some e) => (m1, some e)
    | (isSpaceAvailable, _, none) =>
      if !isSpaceAvailable then (m1, some .notAvailabeSpace)
      else
        let previousVal := getEntry m1 key
        let m2 := insert m1 key updatedVal
        if env.syncOk then (m2, none)
        else (insert m2 key previousVal, some .syncFailed)

/-- The per-key validation loop of `DB.batchCreate`
(`for key := range batchData { db.isEntryValid(key, batchData[key]) }`),
threading the map because `isEntryValid` may evict. -/
def validateBatch (env : Env T) :
    KVMap T → List (String × DbData T) → KVMap T × Option DbErr
  | m, [] => (m, none)
  | m, (k, v) :: rest =>
    match isEntryValid env m k v with
    | (m1, _, some e) => (m1, some e)
    | (m1, _, none) => validateBatch env m1 rest

/-- `DB.batchCreate` (the write-worker action behind `BatchCreate`). -/
def batchCreate (env : Env T) (m : KVMap T)
    (batchData : List (String × DbData T)) : KVMap T × Option DbErr :=
  if batchData.length > BatchLimit then (m, some .batchLimitCountExceeds)
  else
    match validateBatch env m batchData with
    | (m1, some e) => (m1, some e)
    | (m1, none) =>
      match env.marshalMapBytes batchData with
      | none => (m1, some .jsonMarshalError)
      | some len =>
        let jsonBatchedDataSizeKb := BytesToKB len
        match checkAvailableSpace env jsonBatchedDataSizeKb with
        | (_, _, some e) => (m1, some e)
        | (isSpaceAvailable, _, none) =>
          if !isSpaceAvailable then (m1, some .batchSizeLimitCrossed)
          else
            let m2 := batchData.foldl (fun acc kv => insert acc kv.1 kv.2) m1
            if env.syncOk then (m2, none)
            else
              (batchData.foldl (fun acc kv => erase acc kv.1) m2,
               some .syncFailed)

/-- `DB.cleanupExpiredKeys`: iterate over the keys present at the start
of the sweep, evicting each expired one; the trailing `Sync` error is
ignored (best effort), so only the in-memory result is modelled. -/
def cleanupExpiredKeys (env : Env T) (m : KVMap T) : KVMap T :=
  (keys m).foldl
    (fun acc k => if IsExpired env acc k then erase acc k else acc) m

end Engine

section PublicAPI

open KVMap

variable {T : Type} [Inhabited T]

/-- The public store handle: the in-memory map plus the `closed` flag
(channels, locks and the waitgroup carry no sequential state). -/
structure DBState (T : Type) where
  data : KVMap T
  closed : Bool

/-- Public `DB.Create`: rejected with `DBAlreadyClosed` when closed,
otherwise dispatched through the write worker to `create`. -/
def CreateOp (env : Env T) (db : DBState T) (key : String)
    (value : DbData T) : DBState T × Option DbErr :=
  if db.closed then (db, some .dbAlreadyClosed)
  else
    let r := create env db.data key value
    ({ db with data := r.1 }, r.2)

/-- Public `DB.Read`. -/
def ReadOpP (env : Env T) (db : DBState T) (key : String) :
    DBState T × Option (DbData T) × Option DbErr :=
  if db.closed then (db, none, some .dbAlreadyClosed)
  else
    let r := readOp env db.data key
    ({ db with data := r.1 }, r.2.1, r.2.2)

/-- Public `DB.Update`. -/
def UpdateOp (env : Env T) (db : DBState T) (key : String)
    (value : DbData T) : DBState T × Option DbErr :=
  if db.closed then (db, some .dbAlreadyClosed)
  else
    let r := update env db.data key value
    ({ db with data := r.1 }, r.2)

/-- Public `DB.Delete`: note the distinct closed error
(`DatabaseAlreadyClose`, not `DBAlreadyClosed`). -/
def DeleteOpP (env : Env T) (db : DBState T) (key : String) :
    DBState T × Option DbErr :=
  if db.closed then (db, some .databaseAlreadyClose)
  else
    let r := deleteOp env db.data key
    ({ db with data := r.1 }, r.2)

/-- Public `DB.BatchCreate`. -/
def BatchCreateOp (env : Env T) (db : DBState T)
    (batchData : List (String × DbData T)) : DBState T × Option DbErr :=
  if db.closed then (db, some .dbAlreadyClosed)
  else
    let r := batchCreate env db.data batchData
    ({ db with data := r.1 }, r.2)

/-- `DB.Close`: `DBAlreadyClosed` on a second call; otherwise flips the
flag, drains the workers, and returns `releaseLock`'s result. -/
def CloseOp (env : Env T) (db : DBState T) : DBState T × Option DbErr :=
  if db.closed then (db, some .dbAlreadyClosed)
  else ({ db with closed := true }, env.releaseErr)

/-- Whether an error reports the closed-database condition (the two
`dbError` factories `DBAlreadyClosed` and `DatabaseAlreadyClose`). -/
def DbErr.isClosedError : DbErr → Bool
  | .dbAlreadyClosed => true
  | .databaseAlreadyClose => true
  | _ => false

end PublicAPI

section Fixtures

/-- A concrete environment over `Unit` values, used to exercise the
model: every entry marshals to `bytes` bytes, the backing file is empty,
`Sync` succeeds exactly when `sync` holds, the clock reads `now`. -/
def mkEnv (bytes : Nat) (sync : Bool) (now : Int) : Env Unit :=
  { marshalBytes := fun _ => some bytes
    marshalMapBytes := fun _ => some bytes
    fileSizeKB := some 0
    syncOk := sync
    releaseErr := none
    now := now }

/-- A concrete `Unit` entry with the given ttl string and creation time. -/
def uEntry (ttl : String) (created : Int) : DbData Unit :=
  { value := (), ttl := ttl, created_at := created }

end Fixtures

/-! ## Association-map lemmas -/

namespace KVMap

variable {T : Type}

theorem lookup_insert_self (m : KVMap T) (k : String) (v : DbData T) :
    lookup (insert m k v) k = some v := by
  induction m with
  | nil => simp [insert, lookup]
  | cons p rest ih =>
    obtain ⟨k0, v0⟩ := p
    by_cases h : k0 = k <;> simp [insert, lookup, h, ih]

theorem lookup_insert_of_ne (m : KVMap T) {k k' : String} (v : DbData T)
    (h : k ≠ k') : lookup (insert m k v) k' = lookup m k' := by
  induction m with
  | nil => simp [insert, lookup, h]
  | cons p rest ih =>
    obtain ⟨k0, v0⟩ := p
    by_cases h0 : k0 = k <;> simp [insert, lookup, h0, h, ih]

theorem lookup_erase_self (m : KVMap T) (k : String) :
    lookup (erase m k) k = none := by
  induction m with
  | nil => simp [erase, lookup]
  | cons p rest ih =>
    obtain ⟨k0, v0⟩ := p
    by_cases h : k0 = k <;> simp [erase, lookup, h, ih]

theorem lookup_erase_of_ne (m : KVMap T) {k k' : String} (h : k ≠ k') :
    lookup (erase m k) k' = lookup m k' := by
  induction m with
  | nil => simp [erase, lookup]
  | cons p rest ih =>
    obtain ⟨k0, v0⟩ := p
    by_cases h0 : k0 = k <;> simp [erase, lookup, h0, h, ih]

theorem erase_of_lookup_none (m : KVMap T) {k : String}
    (h : lookup m k = none) : erase m k = m := by
  induction m with
  | nil => simp [erase]
  | cons p rest ih =>
    obtain ⟨k0, v0⟩ := p
    by_cases h0 : k0 = k
    · simp [lookup, h0] at h
    · simp [lookup, h0] at h
      simp [erase, h0, ih h]

theorem erase_insert_of_lookup_none (m : KVMap T) {k : String}
    (v : DbData T) (h : lookup m k = none) : erase (insert m k v) k = m := by
  induction m with
  | nil => simp [insert, erase]
  | cons p rest ih =>
    obtain ⟨k0, v0⟩ := p
    by_cases h0 : k0 = k
    · simp [lookup, h0] at h
    · simp [lookup, h0] at h
      simp [insert, erase, h0, ih h]

theorem erase_insert_comm (m : KVMap T) {k k' : String} (v : DbData T)
    (h : k ≠ k') : erase (insert m k v) k' = insert (erase m k') k v := by
  induction m with
  | nil => simp [insert, erase, h]
  | cons p rest ih =>
    obtain ⟨k0, v0⟩ := p
    by_cases h0 : k0 = k
    · subst h0
      simp [insert, erase, h]
    · by_cases h1 : k0 = k'
      · subst h1
        simp [insert, erase, h0, ih]
      · simp [insert, erase, h0, h1, ih]

theorem lookup_insert_isSome (m : KVMap T) {k k' : String} (v : DbData T)
    (h : (lookup m k').isSome) : (lookup (insert m k v) k').isSome := by
  by_cases hk : k = k'
  · subst hk
    simp [lookup_insert_self]
  · rwa [lookup_insert_of_ne m v hk]

end KVMap

/-! ## Engine characterization lemmas -/

section EngineLemmas

open KVMap

variable {T : Type} [Inhabited T]

theorem IsExpired_false_of_goAtoi_none (env : Env T) {m : KVMap T}
    {key : String} {e : DbData T} (hp : lookup m key = some e)
    (hg : goAtoi e.ttl = none) : IsExpired env m key = false := by
  by_cases ht : e.ttl = "" <;> simp [IsExpired, getEntry, hp, ht, hg]

omit [Inhabited T] in
theorem checkAvailableSpace_true (env : Env T) (s : ℚ)
    (h : (checkAvailableSpace env s).1 = true) :
    ∃ fs, checkAvailableSpace env s = (true, fs, none) := by
  unfold checkAvailableSpace at h ⊢
  cases hf : env.fileSizeKB with
  | none => rw [hf] at h; simp at h
  | some fs =>
    rw [hf] at h
    by_cases hcmp : fs + s > StorageLimitMB * KBconst
    · simp [hcmp] at h
    · exact ⟨fs, by simp [hcmp]⟩

theorem isEntryValid_ok (env : Env T) (m : KVMap T) (key : String)
    (value : DbData T) (h : (isEntryValid env m key value).2.2 = none) :
    key.utf8ByteSize ≤ 32 ∧ lookup m key = none ∧
      (isValidJson env value).2 = none ∧
      isEntryValid env m key value = (m, (isValidJson env value).1, none) := by
  by_cases h1 : key.utf8ByteSize > 32
  · simp [isEntryValid, h1] at h
  · by_cases h2 : (lookup m key).isSome
    · simp [isEntryValid, h1, h2] at h
    · have hn : lookup m key = none := Option.not_isSome_iff_eq_none.mp h2
      rcases hj : isValidJson env value with ⟨sz, e⟩
      cases e with
      | some err => simp [isEntryValid, h1, h2, hj] at h
      | none =>
        exact ⟨Nat.not_lt.mp h1, hn, by simp [hj],
          by simp [isEntryValid, h1, h2, hj]⟩

theorem create_ok (env : Env T) (m : KVMap T) (key : String) (value : DbData T)
    (hk : ¬ key.utf8ByteSize > 32)
    (habs : lookup m key = none)
    (hj : (isValidJson env value).2 = none)
    (hspace : (checkAvailableSpace env (isValidJson env value).1).1 = true)
    (hsync : env.syncOk = true) :
    create env m key value = (insert m key value, none) := by
  have habs' : ¬ (lookup m key).isSome = true := by simp [habs]
  rcases hjj : isValidJson env value with ⟨sz, e⟩
  cases e with
  | some err => simp [hjj] at hj
  | none =>
    rw [hjj] at hspace
    obtain ⟨fs, hc⟩ := checkAvailableSpace_true env sz hspace
    simp [create, isEntryValid, hk, habs', hjj, hc, hsync]

theorem create_sync_fail (env : Env T) (m : KVMap T) (key : String)
    (value : DbData T)
    (hk : ¬ key.utf8ByteSize > 32)
    (habs : lookup m key = none)
    (hj : (isValidJson env value).2 = none)
    (hspace : (checkAvailableSpace env (isValidJson env value).1).1 = true)
    (hsync : env.syncOk = false) :
    create env m key value = (m, some .syncFailed) := by
  have habs' : ¬ (lookup m key).isSome = true := by simp [habs]
  rcases hjj : isValidJson env value with ⟨sz, e⟩
  cases e with
  | some err => simp [hjj] at hj
  | none =>
    rw [hjj] at hspace
    obtain ⟨fs, hc⟩ := checkAvailableSpace_true env sz hspace
    simp [create, isEntryValid, hk, habs', hjj, hc, hsync,
      erase_insert_of_lookup_none m value habs]

theorem create_present (env : Env T) (m : KVMap T) (key : String)
    (value : DbData T)
    (hk : ¬ key.utf8ByteSize > 32)
    (hp : (lookup m key).isSome = true) :
    create env m key value =
      ((if IsExpired env m key then (deleteEntry env m key).1 else m),
        some DbErr.entryAlreadyExists) := by
  simp [create, isEntryValid, hk, hp]

theorem isEntryValid_present_not_expired (env : Env T) (m : KVMap T)
    (key : String) (value : DbData T)
    (hp : (lookup m key).isSome = true)
    (hne : IsExpired env m key = false) :
    (isEntryValid env m key value).1 = m ∧
      (isEntryValid env m key value).2.1 = 0 := by
  by_cases hk : key.utf8ByteSize > 32 <;> simp [isEntryValid, hk, hp, hne]

theorem update_ok (env : Env T) (m : KVMap T) (key : String) (v : DbData T)
    (hp : (lookup m key).isSome = true)
    (hne : IsExpired env m key = false)
    (hspace : (checkAvailableSpace env 0).1 = true)
    (hsync : env.syncOk = true) :
    update env m key v = (insert m key v, none) := by
  have hpn : ¬ (lookup m key).isNone = true := by
    simp [Option.isNone_iff_eq_none]
    intro hc
    simp [hc] at hp
  obtain ⟨heq1, heq2⟩ := isEntryValid_present_not_expired env m key v hp hne
  obtain ⟨fs, hc⟩ := checkAvailableSpace_true env 0 hspace
  simp [update, hpn, hne, heq1, heq2, hc, hsync]

theorem validateBatch_ok (env : Env T) (m : KVMap T)
    (batch : List (String × DbData T))
    (h : (validateBatch env m batch).2 = none) :
    (validateBatch env m batch).1 = m ∧
      ∀ kv ∈ batch, lookup m kv.1 = none := by
  induction batch generalizing m with
  | nil => simp [validateBatch]
  | cons kv rest ih =>
    obtain ⟨k, v⟩ := kv
    rcases hE : isEntryValid env m k v with ⟨m1, sz, e⟩
    cases e with
    | some err => simp [validateBatch, hE] at h
    | none =>
      have hch := isEntryValid_ok env m k v (by rw [hE])
      have heq : (m1, sz, (none : Option DbErr)) =
          (m, (isValidJson env v).1, none) := hE.symm.trans hch.2.2.2
      have hm1 : m1 = m := by
        have h1 := congrArg Prod.fst heq
        simpa using h1
      have hrec : validateBatch env m ((k, v) :: rest) = validateBatch env m1 rest := by
        simp only [validateBatch, hE]
      rw [hrec, hm1] at h
      obtain ⟨ih1, ih2⟩ := ih m h
      refine ⟨?_, ?_⟩
      · rw [hrec, hm1]
        exact ih1
      · intro kv hkv
        rcases List.mem_cons.mp hkv with hkv | hkv
        · subst hkv
          exact hch.2.1
        · exact ih2 kv hkv

omit [Inhabited T] in
theorem erase_foldl_insert (batch : List (String × DbData T)) (m : KVMap T)
    (k : String) (hk : ∀ kv ∈ batch, kv.1 ≠ k) :
    erase (batch.foldl (fun acc kv => insert acc kv.1 kv.2) m) k =
      batch.foldl (fun acc kv => insert acc kv.1 kv.2) (erase m k) := by
  induction batch generalizing m with
  | nil => rfl
  | cons kv rest ih =>
    obtain ⟨k0, v0⟩ := kv
    simp only [List.foldl_cons]
    rw [ih _ (fun kv h => hk kv (List.mem_cons_of_mem _ h)),
      erase_insert_comm m v0 (hk (k0, v0) (List.mem_cons_self _ _))]

omit [Inhabited T] in
theorem foldl_insert_erase_cancel (batch : List (String × DbData T))
    (m : KVMap T)
    (habs : ∀ kv ∈ batch, lookup m kv.1 = none)
    (hnd : (batch.map Prod.fst).Nodup) :
    batch.foldl (fun acc kv => erase acc kv.1)
      (batch.foldl (fun acc kv => insert acc kv.1 kv.2) m) = m := by
  induction batch generalizing m with
  | nil => rfl
  | cons kv rest ih =>
    obtain ⟨k0, v0⟩ := kv
    simp only [List.map_cons, List.nodup_cons, List.mem_map] at hnd
    have hk0 : ∀ kv ∈ rest, kv.1 ≠ k0 := by
      intro kv hkv hc
      exact hnd.1 ⟨kv, hkv, hc⟩
    simp only [List.foldl_cons]
    rw [erase_foldl_insert rest (insert m k0 v0) k0 hk0,
      erase_insert_of_lookup_none m v0 (habs (k0, v0) (List.mem_cons_self _ _))]
    exact ih m (fun kv h => habs kv (List.mem_cons_of_mem _ h)) hnd.2

omit [Inhabited T] in
theorem lookup_foldl_insert_isSome (batch : List (String × DbData T))
    (m : KVMap T) (k : String)
    (h : k ∈ batch.map Prod.fst ∨ (lookup m k).isSome = true) :
    (lookup (batch.foldl (fun acc kv => insert acc kv.1 kv.2) m) k).isSome
      = true := by
  induction batch generalizing m with
  | nil =>
    rcases h with h | h
    · simp at h
    · simpa using h
  | cons kv rest ih =>
    obtain ⟨k0, v0⟩ := kv
    simp only [List.foldl_cons]
    apply ih
    rcases h with h | h
    · simp only [List.map_cons, List.mem_cons] at h
      rcases h with h | h
      · right
        subst h
        simp [lookup_insert_self]
      · left
        exact h
    · right
      exact lookup_insert_isSome m v0 h

theorem sweep_keeps_unparsable (env : Env T) (ks : List String) (m : KVMap T)
    {key : String} {e : DbData T}
    (hp : lookup m key = some e) (hg : goAtoi e.ttl = none) :
    lookup
      (ks.foldl (fun acc k => if IsExpired env acc k then erase acc k else acc) m)
      key = some e := by
  induction ks generalizing m with
  | nil => exact hp
  | cons k rest ih =>
    simp only [List.foldl_cons]
    by_cases hk : k = key
    · subst hk
      rw [IsExpired_false_of_goAtoi_none env hp hg]
      simpa using ih m hp
    · by_cases hexp : IsExpired env m k = true
      · have hif : (if IsExpired env m k = true then erase m k else m) = erase m k :=
          if_pos hexp
        rw [hif]
        exact ih (erase m k) (by rw [lookup_erase_of_ne m hk]; exact hp)
      · have hif : (if IsExpired env m k = true then erase m k else m) = m :=
          if_neg hexp
        rw [hif]
        exact ih m hp

omit [Inhabited T] in
theorem checkAvailableSpace_err (env : Env T) (s : ℚ) :
    (checkAvailableSpace env s).2.2 = none ∨
      (checkAvailableSpace env s).2.2 = some DbErr.failedToGetFileSize := by
  unfold checkAvailableSpace
  cases env.fileSizeKB with
  | none => simp
  | some fs => by_cases h : fs + s > StorageLimitMB * KBconst <;> simp [h]

theorem getEntry_eq_of_isSome {m : KVMap T} {key : String}
    (hp : (lookup m key).isSome = true) :
    some (getEntry m key) = lookup m key := by
  obtain ⟨e, he⟩ := Option.isSome_iff_exists.mp hp
  simp [getEntry, he]

end EngineLemmas

/-! ## Claim theorems -/

section Claims

open KVMap

variable {T : Type} [Inhabited T]

/-- C1: for every store state and every `Create(key, value)` whose
validation and capacity checks pass, if `Sync` fails then after `Create`
returns the key is absent from the in-memory map, the map equals the
pre-call state, and `Create` returns the persistence error. -/
theorem C1_create_rollback_on_sync_failure (env : Env T) (db : DBState T)
    (key : String) (value : DbData T)
    (hopen : db.closed = false)
    (hvalid : (isEntryValid env db.data key value).2.2 = none)
    (hspace :
      (checkAvailableSpace env (isEntryValid env db.data key value).2.1).1 = true)
    (hsync : env.syncOk = false) :
    CreateOp env db key value = (db, some DbErr.syncFailed) ∧
      lookup (CreateOp env db key value).1.data key = none := by
  obtain ⟨dd, dc⟩ := db
  simp only at hopen hvalid hspace
  subst hopen
  obtain ⟨hk, habs, hj, hE⟩ := isEntryValid_ok env dd key value hvalid
  have hsz : (isEntryValid env dd key value).2.1 = (isValidJson env value).1 := by
    rw [hE]
  rw [hsz] at hspace
  have hcr := create_sync_fail env dd key value (Nat.not_lt.mpr hk) habs hj
    hspace hsync
  have hres : CreateOp env ⟨dd, false⟩ key value =
      ((⟨dd, false⟩ : DBState T), some DbErr.syncFailed) := by
    simp [CreateOp, hcr]
  exact ⟨hres, by rw [hres]; exact habs⟩

theorem C1_witness_rollback :
    CreateOp (mkEnv 10 false 100) ⟨[], false⟩ "a" (uEntry "" 0) =
      ((⟨[], false⟩ : DBState Unit), some DbErr.syncFailed) ∧
      lookup (CreateOp (mkEnv 10 false 100) ⟨[], false⟩ "a" (uEntry "" 0)).1.data "a"
        = none :=
  C1_create_rollback_on_sync_failure (mkEnv 10 false 100) ⟨[], false⟩ "a"
    (uEntry "" 0) rfl
    (by
      have hk : ¬ (32 < "a".utf8ByteSize) := by decide
      norm_num [isEntryValid, isValidJson, BytesToKB, EntrySizeLimitMB, KBconst,
        mkEnv, KVMap.lookup, hk])
    (by
      have hk : ¬ (32 < "a".utf8ByteSize) := by decide
      norm_num [isEntryValid, isValidJson, checkAvailableSpace, BytesToKB,
        EntrySizeLimitMB, StorageLimitMB, KBconst, mkEnv, KVMap.lookup, hk])
    rfl

/-- C2 counterexample: at a state whose key "a" is present but expired,
`create` does NOT proceed after the lazy eviction — it still returns
`EntryAlreadyExists` (the `return` in `isEntryValid` sits outside the
expiry branch), refuting the claim that the create then proceeds. -/
theorem C2_counterexample_create_on_expired_key :
    IsExpired (mkEnv 10 true 100) [("a", uEntry "5" 0)] "a" = true ∧
      (create (mkEnv 10 true 100) [("a", uEntry "5" 0)] "a" (uEntry "" 100)).2 =
        some DbErr.entryAlreadyExists := by
  constructor
  · decide
  · decide

/-- C2 (amended): `Create(key, value)` fails with `EntryAlreadyExists`
whenever the key (of admissible length) is present — whether or not the
entry is expired; when it is expired the stale entry is first evicted
lazily, but the create still fails rather than proceeding. -/
theorem C2_amended_create_fails_on_any_present_key (env : Env T) (m : KVMap T)
    (key : String) (value : DbData T)
    (hk : key.utf8ByteSize ≤ 32)
    (hp : (lookup m key).isSome = true) :
    (create env m key value).2 = some DbErr.entryAlreadyExists ∧
      (create env m key value).1 =
        (if IsExpired env m key then (deleteEntry env m key).1 else m) := by
  have h := create_present env m key value (Nat.not_lt.mpr hk) hp
  rw [h]
  exact ⟨rfl, rfl⟩

theorem C2_amended_witness :
    (create (mkEnv 10 true 100) [("a", uEntry "5" 0)] "a" (uEntry "" 100)).2 =
        some DbErr.entryAlreadyExists ∧
      (create (mkEnv 10 true 100) [("a", uEntry "5" 0)] "a" (uEntry "" 100)).1 =
        (if IsExpired (mkEnv 10 true 100) [("a", uEntry "5" 0)] "a" then
          (deleteEntry (mkEnv 10 true 100) [("a", uEntry "5" 0)] "a").1
        else [("a", uEntry "5" 0)]) :=
  C2_amended_create_fails_on_any_present_key (mkEnv 10 true 100)
    [("a", uEntry "5" 0)] "a" (uEntry "" 100) (by decide) (by decide)

/-- C3: the failing input for the claimed update-time size validation.
The candidate value serializes to 20 MB, so `isValidJson` rejects it
with the entry-too-large error — yet `update` on a present, non-expired
key succeeds, because `update` discards the result of `isEntryValid`
(`entrySize, _ :=` under the source comment `TODO: handle entryErr
here`) and runs the space check with `entrySize = 0`. -/
theorem C3_update_size_check_skipped :
    (isValidJson (mkEnv (20 * 1024 * 1024) true 100) (uEntry "" 99)).2 =
        some DbErr.jsonSizeExceedsLimit ∧
      (update (mkEnv (20 * 1024 * 1024) true 100) [("a", uEntry "" 0)] "a"
          (uEntry "" 99)).2 = none := by
  constructor
  · norm_num [isValidJson, BytesToKB, EntrySizeLimitMB, KBconst, mkEnv]
  · have hk : ¬ (32 < "a".utf8ByteSize) := by decide
    norm_num [update, isEntryValid, isValidJson, checkAvailableSpace, IsExpired,
      KVMap.getEntry, KVMap.lookup, KVMap.insert, KVMap.erase, deleteEntry,
      BytesToKB, EntrySizeLimitMB, KBconst, StorageLimitMB, mkEnv, uEntry, hk]

/-- C4: a `BatchCreate` whose count, per-key validation and quota checks
pass is all-or-nothing: on successful persistence every key of the batch
is present in memory; on persistence failure every batch key is removed
and the map equals the pre-call state. -/
theorem C4_batchCreate_all_or_nothing (env : Env T) (m : KVMap T)
    (batch : List (String × DbData T)) (len : Nat)
    (hlen : batch.length ≤ BatchLimit)
    (hnd : (batch.map Prod.fst).Nodup)
    (hval : (validateBatch env m batch).2 = none)
    (hmar : env.marshalMapBytes batch = some len)
    (hspace : (checkAvailableSpace env (BytesToKB len)).1 = true) :
    (env.syncOk = true →
        (batchCreate env m batch).2 = none ∧
          ∀ kv ∈ batch, (lookup (batchCreate env m batch).1 kv.1).isSome = true) ∧
      (env.syncOk = false →
        (batchCreate env m batch).2 = some DbErr.syncFailed ∧
          (batchCreate env m batch).1 = m) := by
  obtain ⟨hv1, hv2⟩ := validateBatch_ok env m batch hval
  obtain ⟨fs, hc⟩ := checkAvailableSpace_true env (BytesToKB len) hspace
  have hVB : validateBatch env m batch = (m, none) := by
    rw [Prod.ext_iff]
    exact ⟨hv1, hval⟩
  have hnotlen : ¬ (batch.length > BatchLimit) := Nat.not_lt.mpr hlen
  have hbc : batchCreate env m batch =
      (if env.syncOk then
        (batch.foldl (fun acc kv => insert acc kv.1 kv.2) m, none)
      else
        (batch.foldl (fun acc kv => erase acc kv.1)
          (batch.foldl (fun acc kv => insert acc kv.1 kv.2) m),
          some DbErr.syncFailed)) := by
    simp [batchCreate, hnotlen, hVB, hmar, hc]
  refine ⟨?_, ?_⟩
  · intro hs
    rw [hbc, if_pos hs]
    refine ⟨rfl, ?_⟩
    intro kv hkv
    exact lookup_foldl_insert_isSome batch m kv.1
      (Or.inl (List.mem_map_of_mem _ hkv))
  · intro hs
    rw [hbc, if_neg (by simp [hs])]
    exact ⟨rfl, foldl_insert_erase_cancel batch m hv2 hnd⟩

theorem C4_witness_batch :
    ((mkEnv 10 true 100).syncOk = true →
        (batchCreate (mkEnv 10 true 100) []
            [("x", uEntry "" 0), ("y", uEntry "" 0)]).2 = none ∧
          ∀ kv ∈ [("x", uEntry "" 0), ("y", uEntry "" 0)],
            (lookup (batchCreate (mkEnv 10 true 100) []
                [("x", uEntry "" 0), ("y", uEntry "" 0)]).1 kv.1).isSome = true) ∧
      ((mkEnv 10 true 100).syncOk = false →
        (batchCreate (mkEnv 10 true 100) []
            [("x", uEntry "" 0), ("y", uEntry "" 0)]).2 = some DbErr.syncFailed ∧
          (batchCreate (mkEnv 10 true 100) []
            [("x", uEntry "" 0), ("y", uEntry "" 0)]).1 = []) :=
  C4_batchCreate_all_or_nothing (mkEnv 10 true 100) []
    [("x", uEntry "" 0), ("y", uEntry "" 0)] 10
    (by decide) (by decide)
    (by
      have hx : ¬ (32 < "x".utf8ByteSize) := by decide
      have hy : ¬ (32 < "y".utf8ByteSize) := by decide
      norm_num [validateBatch, isEntryValid, isValidJson, IsExpired,
        KVMap.getEntry, KVMap.lookup, BytesToKB, EntrySizeLimitMB, KBconst,
        mkEnv, uEntry, hx, hy])
    rfl
    (by norm_num [checkAvailableSpace, BytesToKB, StorageLimitMB, KBconst, mkEnv])

/-- C5 counterexample: with key "a" present but expired and `Sync` made
to fail, `delete` returns `KeyExpired`, not the persistence error the
claim requires (`err != nil && !isExpired` short-circuits), though the
evicted entry is restored. -/
theorem C5_counterexample_delete_expired_sync_failure :
    (lookup ([("a", uEntry "5" 0)] : KVMap Unit) "a").isSome = true ∧
      IsExpired (mkEnv 10 false 100) [("a", uEntry "5" 0)] "a" = true ∧
      (mkEnv 10 false 100).syncOk = false ∧
      (deleteOp (mkEnv 10 false 100) [("a", uEntry "5" 0)] "a").2 =
        some DbErr.keyExpired ∧
      some DbErr.keyExpired ≠ some DbErr.syncFailed := by
  refine ⟨by decide, by decide, rfl, by decide, by decide⟩

/-- C5 (amended): `Delete(key)` on a present-but-expired key returns
`KeyExpired` whether or not persisting the eviction succeeds; the
eviction removes the key when persistence succeeds, and the evicted
entry is restored in memory when persistence fails. -/
theorem C5_amended_delete_expired_reports_keyExpired (env : Env T)
    (m : KVMap T) (key : String)
    (hp : (lookup m key).isSome = true)
    (he : IsExpired env m key = true) :
    (deleteOp env m key).2 = some DbErr.keyExpired ∧
      lookup (deleteOp env m key).1 key =
        (if env.syncOk then none else lookup m key) := by
  cases hs : env.syncOk with
  | false =>
    have hde : deleteEntry env m key =
        (insert (erase m key) key (getEntry m key), some DbErr.syncFailed) := by
      simp [deleteEntry, hs]
    refine ⟨by simp [deleteOp, hp, he, hde], ?_⟩
    simp [deleteOp, hp, he, hde, hs, lookup_insert_self,
      getEntry_eq_of_isSome hp]
  | true =>
    have hde : deleteEntry env m key = (erase m key, none) := by
      simp [deleteEntry, hs]
    refine ⟨by simp [deleteOp, hp, he, hde], ?_⟩
    simp [deleteOp, hp, he, hde, hs, lookup_erase_self]

theorem C5_amended_witness :
    (deleteOp (mkEnv 10 true 100) [("a", uEntry "5" 0)] "a").2 =
        some DbErr.keyExpired ∧
      lookup (deleteOp (mkEnv 10 true 100) [("a", uEntry "5" 0)] "a").1 "a" =
        (if (mkEnv 10 true 100).syncOk then none
         else lookup [("a", uEntry "5" 0)] "a") :=
  C5_amended_delete_expired_reports_keyExpired (mkEnv 10 true 100)
    [("a", uEntry "5" 0)] "a" (by decide) (by decide)

/-- C6: once `Close()` has returned successfully, every subsequent
`Create`, `Read`, `Update`, `Delete` and `BatchCreate` fails with a
closed-database error (`DBAlreadyClosed`; `Delete` uses the sibling
factory `DatabaseAlreadyClose`, also a closed-database error) without
mutating the store, and a second `Close()` fails with `DBAlreadyClosed`. -/
theorem C6_closed_store_rejects_operations (env env2 : Env T)
    (db : DBState T) (key : String) (value : DbData T)
    (batch : List (String × DbData T))
    (hopen : db.closed = false)
    (hrel : env.releaseErr = none) :
    (CloseOp env db).2 = none ∧
      CreateOp env2 (CloseOp env db).1 key value =
        ((CloseOp env db).1, some DbErr.dbAlreadyClosed) ∧
      ReadOpP env2 (CloseOp env db).1 key =
        ((CloseOp env db).1, none, some DbErr.dbAlreadyClosed) ∧
      UpdateOp env2 (CloseOp env db).1 key value =
        ((CloseOp env db).1, some DbErr.dbAlreadyClosed) ∧
      DeleteOpP env2 (CloseOp env db).1 key =
        ((CloseOp env db).1, some DbErr.databaseAlreadyClose) ∧
      DbErr.databaseAlreadyClose.isClosedError = true ∧
      DbErr.dbAlreadyClosed.isClosedError = true ∧
      BatchCreateOp env2 (CloseOp env db).1 batch =
        ((CloseOp env db).1, some DbErr.dbAlreadyClosed) ∧
      CloseOp env2 (CloseOp env db).1 =
        ((CloseOp env db).1, some DbErr.dbAlreadyClosed) := by
  have hcl : (CloseOp env db).1 = ({ data := db.data, closed := true } : DBState T) := by
    simp [CloseOp, hopen]
  refine ⟨by simp [CloseOp, hopen, hrel], ?_, ?_, ?_, ?_, rfl, rfl, ?_, ?_⟩ <;>
    rw [hcl] <;>
      simp [CreateOp, ReadOpP, UpdateOp, DeleteOpP, BatchCreateOp, CloseOp]

theorem C6_witness_closed :
    (CloseOp (mkEnv 10 true 0) ⟨[], false⟩).2 = none ∧
      CreateOp (mkEnv 10 true 0) (CloseOp (mkEnv 10 true 0) ⟨[], false⟩).1 "a"
          (uEntry "" 0) =
        ((CloseOp (mkEnv 10 true 0) ⟨[], false⟩).1, some DbErr.dbAlreadyClosed) ∧
      ReadOpP (mkEnv 10 true 0) (CloseOp (mkEnv 10 true 0) ⟨[], false⟩).1 "a" =
        ((CloseOp (mkEnv 10 true 0) ⟨[], false⟩).1, none,
          some DbErr.dbAlreadyClosed) ∧
      UpdateOp (mkEnv 10 true 0) (CloseOp (mkEnv 10 true 0) ⟨[], false⟩).1 "a"
          (uEntry "" 0) =
        ((CloseOp (mkEnv 10 true 0) ⟨[], false⟩).1, some DbErr.dbAlreadyClosed) ∧
      DeleteOpP (mkEnv 10 true 0) (CloseOp (mkEnv 10 true 0) ⟨[], false⟩).1 "a" =
        ((CloseOp (mkEnv 10 true 0) ⟨[], false⟩).1,
          some DbErr.databaseAlreadyClose) ∧
      DbErr.databaseAlreadyClose.isClosedError = true ∧
      DbErr.dbAlreadyClosed.isClosedError = true ∧
      BatchCreateOp (mkEnv 10 true 0) (CloseOp (mkEnv 10 true 0) ⟨[], false⟩).1
          [] =
        ((CloseOp (mkEnv 10 true 0) ⟨[], false⟩).1, some DbErr.dbAlreadyClosed) ∧
      CloseOp (mkEnv 10 true 0) (CloseOp (mkEnv 10 true 0) ⟨[], false⟩).1 =
        ((CloseOp (mkEnv 10 true 0) ⟨[], false⟩).1, some DbErr.dbAlreadyClosed) :=
  C6_closed_store_rejects_operations (mkEnv 10 true 0) (mkEnv 10 true 0)
    ⟨[], false⟩ "a" (uEntry "" 0) [] rfl rfl

/-- C7 counterexample: a successful `Update` stores the caller-supplied
record wholesale, so the stored `created_at` becomes the new record's
timestamp (99), not the previous one (5): `created_at` is NOT preserved
by the engine. -/
theorem C7_counterexample_update_replaces_created_at :
    (update (mkEnv 10 true 100) [("a", uEntry "" 5)] "a" (uEntry "" 99)).2 =
        none ∧
      lookup (update (mkEnv 10 true 100) [("a", uEntry "" 5)] "a"
          (uEntry "" 99)).1 "a" = some (uEntry "" 99) ∧
      (uEntry "" 99).created_at ≠ (uEntry "" 5).created_at := by
  have hk : ¬ (32 < "a".utf8ByteSize) := by decide
  refine ⟨?_, ?_, by decide⟩ <;>
    norm_num [update, isEntryValid, isValidJson, checkAvailableSpace, IsExpired,
      KVMap.getEntry, KVMap.lookup, KVMap.insert, KVMap.erase, deleteEntry,
      BytesToKB, EntrySizeLimitMB, KBconst, StorageLimitMB, mkEnv, uEntry, hk]

/-- C7 (amended): after a successful `Update(key, value)` on a present,
non-expired key, the stored entry equals the caller-supplied record
`value` — including its `created_at` field; the engine does not itself
preserve the previous timestamp, so `created_at` is unchanged only when
the caller passes the old timestamp along. -/
theorem C7_amended_update_stores_caller_record (env : Env T) (m : KVMap T)
    (key : String) (v : DbData T)
    (hp : (lookup m key).isSome = true)
    (hne : IsExpired env m key = false)
    (hspace : (checkAvailableSpace env 0).1 = true)
    (hsync : env.syncOk = true) :
    (update env m key v).2 = none ∧
      lookup (update env m key v).1 key = some v := by
  have h := update_ok env m key v hp hne hspace hsync
  rw [h]
  exact ⟨rfl, lookup_insert_self m key v⟩

theorem C7_amended_witness :
    (update (mkEnv 10 true 100) [("a", uEntry "" 5)] "a" (uEntry "7" 99)).2 =
        none ∧
      lookup (update (mkEnv 10 true 100) [("a", uEntry "" 5)] "a"
          (uEntry "7" 99)).1 "a" = some (uEntry "7" 99) :=
  C7_amended_update_stores_caller_record (mkEnv 10 true 100)
    [("a", uEntry "" 5)] "a" (uEntry "7" 99) (by decide) (by decide)
    (by norm_num [checkAvailableSpace, StorageLimitMB, KBconst, mkEnv]) rfl

/-- C8: for a valid, absent key whose candidate value serializes to
`len` bytes, `create` fails with the entry-too-large error exactly when
the measured size in KB exceeds the configured per-entry limit of
16*1024 KB. -/
theorem C8_create_entry_too_large_iff (env : Env T) (m : KVMap T)
    (key : String) (value : DbData T) (len : Nat)
    (hk : key.utf8ByteSize ≤ 32)
    (habs : lookup m key = none)
    (hm : env.marshalBytes value = some len) :
    ((create env m key value).2 = some DbErr.jsonSizeExceedsLimit ↔
      BytesToKB len > EntrySizeLimitMB * KBconst) := by
  have hk' : ¬ key.utf8ByteSize > 32 := Nat.not_lt.mpr hk
  have habs' : ¬ (lookup m key).isSome = true := by simp [habs]
  by_cases hbig : BytesToKB len > EntrySizeLimitMB * KBconst
  · have hj : isValidJson env value = (BytesToKB len, some .jsonSizeExceedsLimit) := by
      simp [isValidJson, hm, hbig]
    simp [create, isEntryValid, hk', habs', hj, hbig]
  · have hj : isValidJson env value = (BytesToKB len, none) := by
      simp [isValidJson, hm, hbig]
    have hEV : isEntryValid env m key value = (m, BytesToKB len, none) := by
      simp [isEntryValid, hk', habs', hj]
    simp only [hbig, iff_false]
    rcases hc : checkAvailableSpace env (BytesToKB len) with ⟨avail, fs, ce⟩
    have hce := checkAvailableSpace_err env (BytesToKB len)
    rw [hc] at hce
    rcases hce with hce | hce <;> simp only at hce
    · subst hce
      cases avail
      · simp [create, hEV, hc]
      · cases hs : env.syncOk <;> simp [create, hEV, hc, hs]
    · subst hce
      simp [create, hEV, hc]

theorem C8_witness_oversized :
    ((create (mkEnv (20 * 1024 * 1024) true 100) [] "a" (uEntry "" 0)).2 =
        some DbErr.jsonSizeExceedsLimit ↔
      BytesToKB (20 * 1024 * 1024) > EntrySizeLimitMB * KBconst) :=
  C8_create_entry_too_large_iff (mkEnv (20 * 1024 * 1024) true 100) [] "a"
    (uEntry "" 0) (20 * 1024 * 1024) (by decide) rfl rfl

/-- C9: two concurrent `Create` calls with the same key are serialized
by the single write worker; whichever order it processes them in, the
first succeeds and the second fails with `EntryAlreadyExists` — exactly
one succeeds, under any environment for the second call. -/
theorem C9_concurrent_creates_one_succeeds (env : Env T) (m : KVMap T)
    (key : String) (va vb : DbData T)
    (hk : key.utf8ByteSize ≤ 32)
    (habs : lookup m key = none)
    (hja : (isValidJson env va).2 = none)
    (hjb : (isValidJson env vb).2 = none)
    (hsa : (checkAvailableSpace env (isValidJson env va).1).1 = true)
    (hsb : (checkAvailableSpace env (isValidJson env vb).1).1 = true)
    (hsync : env.syncOk = true) :
    ((create env m key va).2 = none ∧
        ∀ env2 : Env T, (create env2 (create env m key va).1 key vb).2 =
          some DbErr.entryAlreadyExists) ∧
      ((create env m key vb).2 = none ∧
        ∀ env2 : Env T, (create env2 (create env m key vb).1 key va).2 =
          some DbErr.entryAlreadyExists) := by
  have hk' : ¬ key.utf8ByteSize > 32 := Nat.not_lt.mpr hk
  have ha := create_ok env m key va hk' habs hja hsa hsync
  have hb := create_ok env m key vb hk' habs hjb hsb hsync
  refine ⟨⟨by rw [ha], ?_⟩, ⟨by rw [hb], ?_⟩⟩
  · intro env2
    have hpres : (lookup (create env m key va).1 key).isSome = true := by
      rw [ha]
      simp [lookup_insert_self]
    rw [create_present env2 _ key vb hk' hpres]
  · intro env2
    have hpres : (lookup (create env m key vb).1 key).isSome = true := by
      rw [hb]
      simp [lookup_insert_self]
    rw [create_present env2 _ key va hk' hpres]

theorem C9_witness_two_creates :
    ((create (mkEnv 10 true 100) [] "a" (uEntry "" 0)).2 = none ∧
        ∀ env2 : Env Unit,
          (create env2 (create (mkEnv 10 true 100) [] "a" (uEntry "" 0)).1 "a"
            (uEntry "" 1)).2 = some DbErr.entryAlreadyExists) ∧
      ((create (mkEnv 10 true 100) [] "a" (uEntry "" 1)).2 = none ∧
        ∀ env2 : Env Unit,
          (create env2 (create (mkEnv 10 true 100) [] "a" (uEntry "" 1)).1 "a"
            (uEntry "" 0)).2 = some DbErr.entryAlreadyExists) :=
  C9_concurrent_creates_one_succeeds (mkEnv 10 true 100) [] "a" (uEntry "" 0)
    (uEntry "" 1) (by decide) rfl
    (by norm_num [isValidJson, BytesToKB, EntrySizeLimitMB, KBconst, mkEnv])
    (by norm_num [isValidJson, BytesToKB, EntrySizeLimitMB, KBconst, mkEnv])
    (by norm_num [isValidJson, checkAvailableSpace, BytesToKB, EntrySizeLimitMB,
      StorageLimitMB, KBconst, mkEnv])
    (by norm_num [isValidJson, checkAvailableSpace, BytesToKB, EntrySizeLimitMB,
      StorageLimitMB, KBconst, mkEnv])
    rfl

/-- C10: an entry whose non-empty ttl does not parse as an integer is
never expired at any time: `Read` returns its value and the expiry sweep
never evicts it. -/
theorem C10_unparsable_ttl_never_expires (env env2 : Env T) (m : KVMap T)
    (key : String) (e : DbData T)
    (hp : lookup m key = some e)
    (_ht : e.ttl ≠ "")
    (hg : goAtoi e.ttl = none) :
    IsExpired env m key = false ∧
      readOp env m key = (m, some e, none) ∧
      lookup (cleanupExpiredKeys env2 m) key = some e := by
  have hie := IsExpired_false_of_goAtoi_none env hp hg
  refine ⟨hie, ?_, ?_⟩
  · simp [readOp, hp, hie]
  · unfold cleanupExpiredKeys
    exact sweep_keeps_unparsable env2 (keys m) m hp hg

theorem C10_witness_unparsable_ttl :
    IsExpired (mkEnv 10 true 1000000) [("b", uEntry "abc" 0)] "b" = false ∧
      readOp (mkEnv 10 true 1000000) [("b", uEntry "abc" 0)] "b" =
        ([("b", uEntry "abc" 0)], some (uEntry "abc" 0), none) ∧
      lookup (cleanupExpiredKeys (mkEnv 10 false 1000000)
        [("b", uEntry "abc" 0)]) "b" = some (uEntry "abc" 0) :=
  C10_unparsable_ttl_never_expires (mkEnv 10 true 1000000)
    (mkEnv 10 false 1000000) [("b", uEntry "abc" 0)] "b" (uEntry "abc" 0)
    (by decide) (by decide) (by decide)

end Claims

end LocalKV
